import Mathlib

/-
Verification development for the Gitee auto-updater plugin (src/main.py).
The file shallowly embeds the cursor file helpers (read_last_commit,
save_last_commit, lines 59-74), the remote probe
(get_latest_gitee_commit_hash, lines 91-128) and one iteration of the
background_checker loop (lines 132-210).  External effects (the config
store, the subprocess running git ls-remote, the dynamically imported
gamedata module) are supplied as an explicit environment; the cursor file
is threaded as an explicit `Option String` (none = file absent).
-/

/-- List-level model of Python str.strip() with no arguments: drop leading
and trailing whitespace characters (modelled over the ASCII whitespace
class of Char.isWhitespace). -/
def pyStripList (l : List Char) : List Char :=
  ((l.dropWhile Char.isWhitespace).reverse.dropWhile Char.isWhitespace).reverse

/-- Model of Python s.strip() on strings. -/
def pyStrip (s : String) : String := String.mk (pyStripList s.data)

/-- Model of Python s.split()[0] applied to an already stripped, nonempty
string: the maximal leading run of non-whitespace characters. -/
def firstToken (s : String) : String :=
  String.mk (s.data.takeWhile (fun c => !c.isWhitespace))

/-- Model of Python s.startswith(p). -/
def strStartsWith (s p : String) : Bool := p.data.isPrefixOf s.data

/-- Boolean test that p is a suffix of s. -/
def strEndsWith (s p : String) : Bool := p.data.isSuffixOf s.data

/-- Model of the Python slice s[:n]. -/
def strTake (s : String) (n : Nat) : String := String.mk (s.data.take n)

/-- Index of the leftmost occurrence of needle in the list, if any. -/
def firstOccur (needle : List Char) : List Char → Option Nat
  | [] => if needle.isPrefixOf ([] : List Char) then some 0 else none
  | c :: t =>
    if needle.isPrefixOf (c :: t) then some 0
    else (firstOccur needle t).map (fun i => i + 1)

/-- Model of the Python substring test `needle in hay`. -/
def containsStr (hay needle : String) : Bool :=
  (firstOccur needle.data hay.data).isSome

/-- The tail of the pattern /commits/.*$ matched against the text after
the literal, with Python regex semantics: the dot does not match a
newline, and the dollar anchor (without MULTILINE) matches only at the
end of the string or just before a newline that is the final character.
So the match succeeds iff the first newline of the text, if any, is its
final character; on success the function returns what the anchor leaves
unconsumed (nothing, or that final newline). -/
def dotStarDollar : List Char → Option (List Char)
  | [] => some []
  | c :: t =>
    if c = '\n' then (if t = [] then some ['\n'] else none)
    else dotStarDollar t

/-- Leftmost-match scan of re.sub with pattern /commits/.*$ over the
text: at each position in turn, the literal /commits/ (length 9) must
match and the rest of the pattern must match the remaining text via
dotStarDollar; the first position where the whole pattern matches yields
the text before the match together with the text the anchor leaves
behind.  A position where only the literal matches is skipped, exactly
as the regex engine retries from the next character. -/
def subCommitsAux : List Char → Option (List Char × List Char)
  | [] => none
  | c :: t =>
    if ("/commits/".data).isPrefixOf (c :: t) then
      match dotStarDollar ((c :: t).drop 9) with
      | some rem => some ([], rem)
      | none => (subCommitsAux t).map (fun pr => (c :: pr.1, pr.2))
    else (subCommitsAux t).map (fun pr => (c :: pr.1, pr.2))

/-- Embeds line 92 of src/main.py: re.sub applied with pattern
/commits/.*$ and replacement .git on the configured URL, under Python
regex semantics (dot does not cross a newline, dollar anchors at the end
or just before a trailing final newline).  The leftmost position where
the whole pattern matches is replaced by .git, keeping any trailing
newline the anchor skipped; since the leftover text is empty or a lone
newline, the pattern cannot match again, so re.sub performs at most this
one replacement; with no matching position the URL is unchanged. -/
def normalizeGitUrl (url : String) : String :=
  match subCommitsAux url.data with
  | some (pre, rem) => String.mk (pre ++ ".git".data ++ rem)
  | none => url

/-- Operator notifications sent through send_to_console_channel, one
constructor per call site in src/main.py. -/
inductive Notif
  /-- Lines 108 and 123: git executable missing message. -/
  | gitNotFound
  /-- Line 110: cannot access the repository, with the stripped stderr. -/
  | cannotAccessRepo (msg : String)
  /-- Line 127: unknown error while probing. -/
  | unknownProbeError (msg : String)
  /-- Line 166: gamedata plugin could not be loaded. -/
  | gamedataLoadFailed
  /-- Line 177: no callable download_gamedata found. -/
  | updateFuncMissing
  /-- Lines 183-185: new version detected, carries latest hash truncated
  to 7 characters. -/
  | newVersionDetected (hash7 : String)
  /-- Line 198: unexpected error caught by the inner exception handler. -/
  | cycleError
deriving DecidableEq

/-- Outcome of the await of process.communicate() on line 102, as decided
by the host environment: the subprocess interaction either completes with
a return code and decoded stdout/stderr text, or raising happens at the
subprocess call (FileNotFoundError at line 121, any other exception at
line 125). -/
inductive CommOutcome
  | completed (rc : Int) (out err : String)
  | raisesFileNotFound
  | raisesOther (msg : String)
deriving DecidableEq

/-- Behaviour of the awaited subprocess communication including the case
in which it never completes.  Lines 97-102 impose no timeout of any kind
(no asyncio.wait_for, no bound), so a communication that never completes
leaves the coroutine suspended forever. -/
inductive CommBehavior
  | hangs
  | returns (o : CommOutcome)
deriving DecidableEq

/-- Call convention of the download_gamedata attribute found in the
gamedata module: a plain Python function, or a coroutine function
(defined with async def).  Line 186 calls it with a bare call and never
awaits or schedules the result, so under the coroutine convention the
body of the function is never executed. -/
inductive CallConv
  | sync
  | coroutine
deriving DecidableEq

/-- True exactly on the synchronous call convention. -/
def isSyncConv : CallConv → Bool
  | CallConv.sync => true
  | CallConv.coroutine => false

/-- Outcome classification of one check cycle (the body of the inner try,
lines 147-198). -/
inductive Outcome
  | skippedConfig
  | failedProbe
  | noChange
  | failedDownstream
  | raisedError
  | triggered
deriving DecidableEq

/-- Environment of one loop iteration: configuration values read through
bot.get_config, the subprocess outcome of the probe, the resolvability of
the gamedata module and its download function, the call convention of
that function, whether a synchronous call to it raises, and the eventual
outcomes of the downstream fetch/initialize/publish work (the last three
are what the spec calls the three pipeline steps; the code never observes
them). -/
structure Env where
  enabled : Bool
  intervalMinutes : Int
  repoUrl : Option String
  comm : CommOutcome
  moduleFound : Bool
  funcCallable : Bool
  downloadConv : CallConv
  downloadRaises : Bool
  fetchOk : Bool
  initOk : Bool
  publishOk : Bool
deriving DecidableEq

/-- Observable result of one check cycle: the cursor file state after the
cycle, the git address the probe queried (none when the cycle skipped
before probing), how many times the change branch (lines 159-191) was
entered (pipelineRuns), how many times download_func was called
(downloadCalls), whether the body of the download entry point actually
executed (downloadWorkRan), how many times save_last_commit ran (writes),
the notifications sent, and the outcome class. -/
structure CycleResult where
  fileState : Option String
  queriedUrl : Option String
  pipelineRuns : Nat
  downloadCalls : Nat
  downloadWorkRan : Bool
  writes : Nat
  notifications : List Notif
  outcome : Outcome
deriving DecidableEq

/-- Embeds read_last_commit (lines 59-67): none when the file is absent,
otherwise the file content stripped of leading/trailing whitespace.  The
exception path (lines 65-67) also returns none; the model covers the
successful-read path, with absence standing for any soft read failure. -/
def read_last_commit : Option String → Option String
  | none => none
  | some content => some (pyStrip content)

/-- Embeds save_last_commit (lines 69-74) on the successful-write path:
the file afterwards holds exactly the written string. -/
def save_last_commit (commit_hash : String) (_fs : Option String) : Option String :=
  some commit_hash

/-- Pattern test of line 107 deciding whether stderr indicates a missing
git executable. -/
def toolMissingPattern (msg : String) : Bool :=
  containsStr msg "git\x27 is not recognized" ||
  containsStr msg "不是内部或外部命令" ||
  containsStr msg "not found"

/-- Embeds lines 95-128 of get_latest_gitee_commit_hash given the
completed subprocess outcome: returns the probed hash (or none) together
with the notifications the function sends.  Nonzero return code: one
notification (git-missing text when stderr matches the line 107 patterns,
otherwise the cannot-access text) and no hash.  Zero return code: empty
stripped stdout is only logged as a warning (lines 114-116, no
notification); otherwise the first whitespace-delimited token of stdout
is the hash.  The two exception arms each send one notification. -/
def get_latest_gitee_commit_hash : CommOutcome → Option String × List Notif
  | CommOutcome.completed rc out err =>
    if rc ≠ 0 then
      if toolMissingPattern (pyStrip err) then (none, [Notif.gitNotFound])
      else (none, [Notif.cannotAccessRepo (pyStrip err)])
    else
      if pyStrip out = "" then (none, [])
      else (some (firstToken (pyStrip out)), [])
  | CommOutcome.raisesFileNotFound => (none, [Notif.gitNotFound])
  | CommOutcome.raisesOther msg => (none, [Notif.unknownProbeError msg])

/-- The probe as awaited by the caller, over subprocess behaviours that
include never completing.  Lines 97-102 await process.communicate() with
no timeout, so the hanging behaviour yields no probe result at all: there
is no arm mapping a timeout to an error value. -/
def probe_await : CommBehavior → Option (Option String × List Notif)
  | CommBehavior.hangs => none
  | CommBehavior.returns o => some (get_latest_gitee_commit_hash o)

/-- Result of a cycle that skipped before probing (lines 149-152 and the
absent-configuration arm). -/
def skippedResult (fs : Option String) : CycleResult :=
  { fileState := fs, queriedUrl := none, pipelineRuns := 0, downloadCalls := 0,
    downloadWorkRan := false, writes := 0, notifications := [], outcome := Outcome.skippedConfig }

/-- Embeds lines 154-194 of background_checker, after the repo_url check
has passed.  Reads the cursor, probes, and on line 159 tests Python
truthiness of the probed value and inequality with the stored value.  In
the change branch: module resolution failure and missing download
function each send one notification and leave the file untouched
(lines 162-179); otherwise the new-version notification is sent
(lines 183-185), download_func is called bare (line 186; under the
coroutine convention its body never runs, and a synchronous call that
raises propagates to the line 196 handler before save_last_commit), and
save_last_commit records the probed hash (line 190). -/
def cycleWithUrl (env : Env) (url : String) (fs : Option String) : CycleResult :=
  let gitUrl := normalizeGitUrl url
  let last := read_last_commit fs
  let latest := (get_latest_gitee_commit_hash env.comm).1
  let probeNotifs := (get_latest_gitee_commit_hash env.comm).2
  match latest with
  | none =>
    { fileState := fs, queriedUrl := some gitUrl, pipelineRuns := 0, downloadCalls := 0,
      downloadWorkRan := false, writes := 0, notifications := probeNotifs,
      outcome := Outcome.failedProbe }
  | some h =>
    if h ≠ "" ∧ some h ≠ last then
      if !env.moduleFound then
        { fileState := fs, queriedUrl := some gitUrl, pipelineRuns := 1, downloadCalls := 0,
          downloadWorkRan := false, writes := 0,
          notifications := probeNotifs ++ [Notif.gamedataLoadFailed],
          outcome := Outcome.failedDownstream }
      else if !env.funcCallable then
        { fileState := fs, queriedUrl := some gitUrl, pipelineRuns := 1, downloadCalls := 0,
          downloadWorkRan := false, writes := 0,
          notifications := probeNotifs ++ [Notif.updateFuncMissing],
          outcome := Outcome.failedDownstream }
      else if env.downloadConv = CallConv.sync ∧ env.downloadRaises = true then
        { fileState := fs, queriedUrl := some gitUrl, pipelineRuns := 1, downloadCalls := 1,
          downloadWorkRan := true, writes := 0,
          notifications := probeNotifs ++ [Notif.newVersionDetected (strTake h 7), Notif.cycleError],
          outcome := Outcome.raisedError }
      else
        { fileState := some h, queriedUrl := some gitUrl, pipelineRuns := 1, downloadCalls := 1,
          downloadWorkRan := isSyncConv env.downloadConv, writes := 1,
          notifications := probeNotifs ++ [Notif.newVersionDetected (strTake h 7)],
          outcome := Outcome.triggered }
    else
      if h ≠ "" then
        { fileState := fs, queriedUrl := some gitUrl, pipelineRuns := 0, downloadCalls := 0,
          downloadWorkRan := false, writes := 0, notifications := probeNotifs,
          outcome := Outcome.noChange }
      else
        { fileState := fs, queriedUrl := some gitUrl, pipelineRuns := 0, downloadCalls := 0,
          downloadWorkRan := false, writes := 0, notifications := probeNotifs,
          outcome := Outcome.failedProbe }

/-- Embeds one check cycle, lines 147-194: the repo_url validity test of
lines 148-152 (falsy value or a value not starting with http skips the
cycle with a warning), then the probe-compare-trigger body. -/
def checkUpdateCycle (env : Env) (fs : Option String) : CycleResult :=
  match env.repoUrl with
  | none => skippedResult fs
  | some url =>
    if url = "" ∨ strStartsWith url "http" = false then skippedResult fs
    else cycleWithUrl env url fs

/-- N consecutive check cycles against a constant environment, threading
the cursor file state and accumulating the number of change-branch
entries and of cursor writes. -/
def runCycles : Nat → Env → Option String → Option String × Nat × Nat
  | 0, _, fs => (fs, 0, 0)
  | Nat.succ n, env, fs =>
    let r := checkUpdateCycle env fs
    let rest := runCycles n env r.fileState
    (rest.1, r.pipelineRuns + rest.2.1, r.writes + rest.2.2)

/-- Embeds line 145: interval_seconds = max(interval_minutes, 1) * 60. -/
def intervalSecs (m : Int) : Int := (max m 1) * 60

/-- Exception behaviour of one iteration of the while loop of
background_checker: no exception; asyncio.CancelledError raised at an
await point; an exception raised outside the inner try (lines 140-145, or
escaping the inner handler itself) and caught by the line 207 handler; an
exception raised inside the inner try body and caught by the line 196
handler. -/
inductive LoopExn
  | noExn
  | cancelled
  | topLevel (msg : String)
  | inCycle (msg : String)
deriving DecidableEq

/-- What the loop does at the end of one iteration: leave the loop, or
sleep for the given number of seconds and iterate again. -/
inductive LoopAction
  | stop
  | continueAfter (secs : Int)
deriving DecidableEq

/-- Result of one loop iteration: the loop action and the cursor file
state afterwards. -/
structure LoopStep where
  action : LoopAction
  fileState : Option String
deriving DecidableEq

/-- True exactly on the stop action. -/
def isStopAction : LoopAction → Bool
  | LoopAction.stop => true
  | LoopAction.continueAfter _ => false

/-- True exactly on the cancellation behaviour. -/
def isCancelled : LoopExn → Bool
  | LoopExn.cancelled => true
  | _ => false

/-- Embeds one iteration of the while True loop of background_checker
(lines 138-210).  CancelledError breaks the loop (lines 203-206); any
other exception escaping the inner try is caught at line 207, logged, and
followed by a fixed 60 second sleep before the next iteration (line 210);
an exception inside the inner try is caught at line 196, logged and
reported, and the iteration still reaches the line 201 interval sleep.
Without an exception: a disabled plugin sleeps 60 seconds (line 141),
otherwise the cycle runs and the iteration sleeps the configured interval
(line 201).  The two exception arms are modelled at a point before any
cursor write of that iteration. -/
def loopIter (env : Env) (fs : Option String) : LoopExn → LoopStep
  | LoopExn.cancelled => { action := LoopAction.stop, fileState := fs }
  | LoopExn.topLevel _ => { action := LoopAction.continueAfter 60, fileState := fs }
  | LoopExn.inCycle _ =>
    { action := LoopAction.continueAfter (intervalSecs env.intervalMinutes), fileState := fs }
  | LoopExn.noExn =>
    if env.enabled then
      { action := LoopAction.continueAfter (intervalSecs env.intervalMinutes),
        fileState := (checkUpdateCycle env fs).fileState }
    else
      { action := LoopAction.continueAfter 60, fileState := fs }

/-- True on a completed subprocess interaction with exit code 0 whose
stripped stdout is empty: the probe failure class of lines 114-116. -/
def isEmptyResp : CommOutcome → Bool
  | CommOutcome.completed rc out _ => if rc = 0 ∧ pyStrip out = "" then true else false
  | _ => false

/-- Environment of the C1 counterexample: valid URL, probe observes bbb
while the stored cursor is aaa, the gamedata module and its download
function resolve, the download entry point is a coroutine function, and
all three downstream pipeline steps eventually fail. -/
def envC1x : Env :=
  { enabled := true, intervalMinutes := 10,
    repoUrl := some "https://gitee.com/AmiyaBot/Amiya-Bot-resource/commits/master",
    comm := CommOutcome.completed 0 "bbb\tHEAD\n" "",
    moduleFound := true, funcCallable := true,
    downloadConv := CallConv.coroutine, downloadRaises := false,
    fetchOk := false, initOk := false, publishOk := false }

/-- Fully healthy environment observing bbb, used as the C1 witness. -/
def envC1w : Env :=
  { enabled := true, intervalMinutes := 10,
    repoUrl := some "https://gitee.com/a/b.git",
    comm := CommOutcome.completed 0 "bbb\tHEAD\n" "",
    moduleFound := true, funcCallable := true,
    downloadConv := CallConv.sync, downloadRaises := false,
    fetchOk := true, initOk := true, publishOk := true }

/-- Environment of the C2 witness: the remote head moved to aaa while the
stored cursor is bbbbbbb, a rewind to an older revision. -/
def envC2w : Env :=
  { enabled := true, intervalMinutes := 10,
    repoUrl := some "https://gitee.com/a/b.git",
    comm := CommOutcome.completed 0 "aaa\tHEAD\n" "",
    moduleFound := true, funcCallable := true,
    downloadConv := CallConv.sync, downloadRaises := false,
    fetchOk := true, initOk := true, publishOk := true }

/-- Environment of the C3 witness: the probe keeps observing abc123. -/
def envC3w : Env :=
  { enabled := true, intervalMinutes := 10,
    repoUrl := some "https://gitee.com/a/b.git",
    comm := CommOutcome.completed 0 "abc123\tHEAD\n" "",
    moduleFound := true, funcCallable := true,
    downloadConv := CallConv.sync, downloadRaises := false,
    fetchOk := true, initOk := true, publishOk := true }

/-- Environment of the C4 counterexample: git ls-remote exits 0 but
prints nothing, the empty-response probe failure of lines 114-116. -/
def envC4x : Env :=
  { enabled := true, intervalMinutes := 10,
    repoUrl := some "https://gitee.com/a/b.git",
    comm := CommOutcome.completed 0 "" "",
    moduleFound := true, funcCallable := true,
    downloadConv := CallConv.sync, downloadRaises := false,
    fetchOk := true, initOk := true, publishOk := true }

/-- Environment of the C4 witness: git ls-remote exits nonzero with an
unreachable-remote message on stderr. -/
def envC4w : Env :=
  { enabled := true, intervalMinutes := 10,
    repoUrl := some "https://gitee.com/a/b.git",
    comm := CommOutcome.completed 128 "" "fatal: unable to access repository",
    moduleFound := true, funcCallable := true,
    downloadConv := CallConv.sync, downloadRaises := false,
    fetchOk := true, initOk := true, publishOk := true }

/-- Environment of the C5 counterexample: the download entry point is a
coroutine function. -/
def envC5x : Env :=
  { enabled := true, intervalMinutes := 10,
    repoUrl := some "https://gitee.com/a/b.git",
    comm := CommOutcome.completed 0 "bbb\tHEAD\n" "",
    moduleFound := true, funcCallable := true,
    downloadConv := CallConv.coroutine, downloadRaises := false,
    fetchOk := true, initOk := true, publishOk := true }

/-- Environment of the C5 witness: the download entry point is a plain
synchronous function. -/
def envC5w : Env :=
  { enabled := true, intervalMinutes := 10,
    repoUrl := some "https://gitee.com/a/b.git",
    comm := CommOutcome.completed 0 "bbb\tHEAD\n" "",
    moduleFound := true, funcCallable := true,
    downloadConv := CallConv.sync, downloadRaises := false,
    fetchOk := true, initOk := true, publishOk := true }

/-- Environment of the C8 witness: healthy pipeline, probe observes
abc123, cursor file absent. -/
def envC8w : Env :=
  { enabled := true, intervalMinutes := 10,
    repoUrl := some "https://gitee.com/a/b.git",
    comm := CommOutcome.completed 0 "abc123\tHEAD\n" "",
    moduleFound := true, funcCallable := true,
    downloadConv := CallConv.sync, downloadRaises := false,
    fetchOk := true, initOk := true, publishOk := true }

/-- A list is a prefix of itself followed by anything (Boolean form). -/
theorem isPrefixOf_append_self (l m : List Char) : l.isPrefixOf (l ++ m) = true := by
  induction l with
  | nil => simp
  | cons a t ih => simp [List.isPrefixOf, ih]

/-- A list is a suffix of anything followed by itself (Boolean form). -/
theorem isSuffixOf_append_self (l m : List Char) : m.isSuffixOf (l ++ m) = true := by
  simp [List.isSuffixOf, List.reverse_append, isPrefixOf_append_self]

/-- On newline-free text the tail pattern .*$ always matches, consuming
everything and leaving nothing behind. -/
theorem dotStarDollar_nonl (l : List Char) (hnl : '\n' ∉ l) :
    dotStarDollar l = some [] := by
  induction l with
  | nil => rfl
  | cons c t ih =>
    rw [List.mem_cons] at hnl
    push_neg at hnl
    unfold dotStarDollar
    rw [if_neg (fun e => hnl.1 e.symm)]
    exact ih hnl.2

/-- On newline-free text the leftmost-match scan of re.sub reduces to
the leftmost occurrence of the literal: the pattern matches there, it
consumes everything to the end of the text, and nothing is left behind
the anchor. -/
theorem subCommitsAux_nonl (l : List Char) (hnl : '\n' ∉ l) :
    subCommitsAux l =
      (firstOccur ("/commits/".data) l).map (fun i => (l.take i, ([] : List Char))) := by
  induction l with
  | nil =>
    have hp : ("/commits/".data).isPrefixOf ([] : List Char) = false := by decide
    simp [subCommitsAux, firstOccur, hp]
  | cons c t ih =>
    rw [List.mem_cons] at hnl
    push_neg at hnl
    by_cases hpre : ("/commits/".data).isPrefixOf (c :: t) = true
    · have hd : '\n' ∉ t.drop 8 := fun hm => hnl.2 (List.drop_subset 8 t hm)
      simp [subCommitsAux, firstOccur, hpre, dotStarDollar_nonl _ hd]
    · have ht := ih hnl.2
      cases hf : firstOccur ("/commits/".data) t with
      | none =>
        rw [hf] at ht
        simp only [Option.map_none'] at ht
        simp [subCommitsAux, firstOccur, hpre, hf, ht]
      | some i =>
        rw [hf] at ht
        simp only [Option.map_some'] at ht
        simp [subCommitsAux, firstOccur, hpre, hf, ht, List.take_succ_cons]

/-- Fidelity check against Python: a newline after /commits/ that is not
the final character blocks the anchor at every position, so re.sub
leaves the URL unchanged. -/
theorem normalizeGitUrl_newline_blocked :
    normalizeGitUrl "http://a/commits/x\ny" = "http://a/commits/x\ny" := by decide

/-- Fidelity check against Python: a final newline is skipped by the
anchor and survives the substitution, so the result does not end in
.git. -/
theorem normalizeGitUrl_trailing_newline :
    normalizeGitUrl "http://a/commits/x\n" = "http://a.git\n" := by decide

/-- Fidelity check against Python: when an interior newline blocks the
first occurrence, re.sub rewrites at the second occurrence instead. -/
theorem normalizeGitUrl_second_occurrence :
    normalizeGitUrl "http://a/commits/x\n/commits/y" = "http://a/commits/x\n.git" := by
  decide

/-- A URL passing the startswith http check of line 149 is nonempty. -/
theorem startsWith_http_ne_empty {url : String} (h : strStartsWith url "http" = true) :
    url ≠ "" := by
  intro he
  rw [he] at h
  exact absurd h (by decide)

/-- With a configured URL that passes the line 148-149 validity check,
the cycle runs its probe-compare-trigger body. -/
theorem checkUpdateCycle_valid (env : Env) (url : String) (fs : Option String)
    (hu : env.repoUrl = some url) (hh : strStartsWith url "http" = true) :
    checkUpdateCycle env fs = cycleWithUrl env url fs := by
  have hcond : ¬ (url = "" ∨ strStartsWith url "http" = false) := by
    rintro (he | hf)
    · exact startsWith_http_ne_empty hh he
    · rw [hh] at hf
      cases hf
  unfold checkUpdateCycle
  rw [hu]
  exact if_neg hcond

/-- When the probe observes exactly the stored cursor value, the cycle
takes the no-change arm of line 193 and leaves every piece of state
alone. -/
theorem cycle_nochange (env : Env) (fs : Option String) (url h : String)
    (hu : env.repoUrl = some url) (hh : strStartsWith url "http" = true)
    (hp : (get_latest_gitee_commit_hash env.comm).1 = some h) (hne : h ≠ "")
    (heq : read_last_commit fs = some h) :
    checkUpdateCycle env fs =
      { fileState := fs, queriedUrl := some (normalizeGitUrl url), pipelineRuns := 0,
        downloadCalls := 0, downloadWorkRan := false, writes := 0,
        notifications := (get_latest_gitee_commit_hash env.comm).2,
        outcome := Outcome.noChange } := by
  rw [checkUpdateCycle_valid env url fs hu hh]
  simp only [cycleWithUrl, hp]
  rw [if_neg (fun hc => hc.2 heq.symm)]
  rw [if_pos hne]

/-- C1 counterexample: a cycle in which a change is detected (probe
observes bbb, stored cursor is aaa) and the pipeline is started
(pipelineRuns = 1), all three downstream steps fail (fetchOk, initOk,
publishOk all false), yet the persisted cursor ends the cycle holding the
newly observed revision bbb instead of its pre-cycle value aaa: line 190
runs save_last_commit immediately after the bare download call of
line 186, without observing any step outcome.  This refutes the claim
that a step failure leaves the cursor at its pre-cycle value. -/
theorem C1_counterexample :
    envC1x.fetchOk = false ∧ envC1x.initOk = false ∧ envC1x.publishOk = false ∧
    (checkUpdateCycle envC1x (some "aaa")).pipelineRuns = 1 ∧
    (checkUpdateCycle envC1x (some "aaa")).fileState = some "bbb" ∧
    read_last_commit (some "aaa") ≠ some "bbb" := by
  decide

/-- C1 (amended): in a cycle that detects a change, the persisted cursor
is updated to the newly observed revision if and only if the gamedata
module and a callable download function resolve and the bare download
call does not raise synchronously; the update is recorded immediately
after triggering the download and is independent of whether the
fetch/initialize/publish work succeeds (third conjunct); when resolution
fails or the synchronous call raises, the cursor keeps its pre-cycle
value. -/
theorem C1_cursor_advance_policy (env : Env) (fs : Option String) (url h : String)
    (hu : env.repoUrl = some url) (hh : strStartsWith url "http" = true)
    (hp : (get_latest_gitee_commit_hash env.comm).1 = some h) (hne : h ≠ "")
    (hdiff : read_last_commit fs ≠ some h) :
    ((checkUpdateCycle env fs).fileState =
      if env.moduleFound = true ∧ env.funcCallable = true ∧
          ¬ (env.downloadConv = CallConv.sync ∧ env.downloadRaises = true)
        then some h else fs) ∧
    ((checkUpdateCycle env fs).writes =
      if env.moduleFound = true ∧ env.funcCallable = true ∧
          ¬ (env.downloadConv = CallConv.sync ∧ env.downloadRaises = true)
        then 1 else 0) ∧
    (∀ b1 b2 b3 : Bool,
      checkUpdateCycle { env with fetchOk := b1, initOk := b2, publishOk := b3 } fs =
        checkUpdateCycle env fs) := by
  have h2 : some h ≠ read_last_commit fs := fun e => hdiff e.symm
  refine ⟨?_, ?_, fun b1 b2 b3 => rfl⟩ <;>
  · rw [checkUpdateCycle_valid env url fs hu hh]
    simp only [cycleWithUrl, hp]
    rw [if_pos ⟨hne, h2⟩]
    cases hm : env.moduleFound <;> cases hf : env.funcCallable <;>
      cases hdc : env.downloadConv <;> cases hr : env.downloadRaises <;>
      simp [hm, hf, hdc, hr]

/-- C1 witness: in a healthy environment the amended policy instantiates
to the cursor advancing to the observed revision. -/
theorem C1_cursor_advance_policy_witness :
    (checkUpdateCycle envC1w (some "aaa")).fileState = some "bbb" := by
  rw [(C1_cursor_advance_policy envC1w (some "aaa") "https://gitee.com/a/b.git" "bbb"
    (by decide) (by decide) (by decide) (by decide) (by decide)).1]
  decide

/-- C2: whenever the probe observes a non-empty revision different from
the stored cursor (read_last_commit fs), the cycle enters the change
branch of line 159 exactly once, regardless of revision ordering or
ancestry: the comparison is plain string inequality, so any change of the
remote head, including a rewind to an older revision, triggers exactly
one pipeline run. -/
theorem C2_trigger_correct (env : Env) (fs : Option String) (url h : String)
    (hu : env.repoUrl = some url) (hh : strStartsWith url "http" = true)
    (hp : (get_latest_gitee_commit_hash env.comm).1 = some h) (hne : h ≠ "")
    (hdiff : read_last_commit fs ≠ some h) :
    (checkUpdateCycle env fs).pipelineRuns = 1 := by
  have h2 : some h ≠ read_last_commit fs := fun e => hdiff e.symm
  rw [checkUpdateCycle_valid env url fs hu hh]
  simp only [cycleWithUrl, hp]
  rw [if_pos ⟨hne, h2⟩]
  cases hm : env.moduleFound <;> cases hf : env.funcCallable <;>
    cases hdc : env.downloadConv <;> cases hr : env.downloadRaises <;>
    simp [hm, hf, hdc, hr]

/-- C2 witness: a rewind, the stored cursor bbbbbbb and the observed
older revision aaa, invokes exactly one pipeline run. -/
theorem C2_trigger_correct_witness :
    (checkUpdateCycle envC2w (some "bbbbbbb")).pipelineRuns = 1 :=
  C2_trigger_correct envC2w (some "bbbbbbb") "https://gitee.com/a/b.git" "aaa"
    (by decide) (by decide) (by decide) (by decide) (by decide)

/-- C3: when the probed revision equals the stored cursor, any number N
of consecutive cycles never enters the change branch and never writes the
cursor store, and the file state is unchanged throughout. -/
theorem C3_idempotent (N : Nat) (env : Env) (fs : Option String) (url h : String)
    (hu : env.repoUrl = some url) (hh : strStartsWith url "http" = true)
    (hp : (get_latest_gitee_commit_hash env.comm).1 = some h) (hne : h ≠ "")
    (heq : read_last_commit fs = some h) :
    runCycles N env fs = (fs, 0, 0) := by
  induction N with
  | zero => rfl
  | succ n ih =>
    simp only [runCycles]
    rw [cycle_nochange env fs url h hu hh hp hne heq]
    simp [ih]

/-- C3 witness: cursor file holding abc123 and a probe observing abc123
over three consecutive cycles produce no pipeline run and no write. -/
theorem C3_idempotent_witness :
    runCycles 3 envC3w (some "abc123") = (some "abc123", 0, 0) :=
  C3_idempotent 3 envC3w (some "abc123") "https://gitee.com/a/b.git" "abc123"
    (by decide) (by decide) (by decide) (by decide) (by decide)

/-- C4 counterexample: the empty-response probe failure (git ls-remote
exits 0 with no output, lines 114-116) ends the cycle as failed-probe
with the cursor untouched and the pipeline not invoked, but sends no
operator notification at all, only a log warning.  This refutes the claim
that every probe failure emits an operator notification. -/
theorem C4_counterexample :
    (checkUpdateCycle envC4x (some "abc123")).outcome = Outcome.failedProbe ∧
    (checkUpdateCycle envC4x (some "abc123")).fileState = some "abc123" ∧
    (checkUpdateCycle envC4x (some "abc123")).pipelineRuns = 0 ∧
    (checkUpdateCycle envC4x (some "abc123")).notifications = [] := by
  decide

/-- C4 (amended): every probe failure ends the cycle as failed-probe with
the persisted cursor unchanged, no cursor write and no pipeline
invocation, so a later cycle can retry; the notifications of the cycle
are exactly those of the probe, and their number is one for every probe
failure except the empty-response case, which emits none. -/
theorem C4_probe_failure_handling (env : Env) (fs : Option String) (url : String)
    (hu : env.repoUrl = some url) (hh : strStartsWith url "http" = true)
    (hp : (get_latest_gitee_commit_hash env.comm).1 = none) :
    (checkUpdateCycle env fs).fileState = fs ∧
    (checkUpdateCycle env fs).pipelineRuns = 0 ∧
    (checkUpdateCycle env fs).writes = 0 ∧
    (checkUpdateCycle env fs).outcome = Outcome.failedProbe ∧
    (checkUpdateCycle env fs).notifications = (get_latest_gitee_commit_hash env.comm).2 ∧
    (get_latest_gitee_commit_hash env.comm).2.length =
      (if isEmptyResp env.comm = true then 0 else 1) := by
  have hlen : (get_latest_gitee_commit_hash env.comm).2.length =
      (if isEmptyResp env.comm = true then 0 else 1) := by
    cases hc : env.comm with
    | completed rc out err =>
      rw [hc] at hp
      by_cases hrc : rc = 0
      · by_cases hout : pyStrip out = ""
        · simp [get_latest_gitee_commit_hash, isEmptyResp, hrc, hout]
        · exfalso
          simp [get_latest_gitee_commit_hash, hrc, hout] at hp
      · by_cases hpat : toolMissingPattern (pyStrip err) = true
        · simp [get_latest_gitee_commit_hash, isEmptyResp, hrc, hpat]
        · simp [get_latest_gitee_commit_hash, isEmptyResp, hrc, hpat]
    | raisesFileNotFound => simp [get_latest_gitee_commit_hash, isEmptyResp]
    | raisesOther m => simp [get_latest_gitee_commit_hash, isEmptyResp]
  rw [checkUpdateCycle_valid env url fs hu hh]
  refine ⟨?_, ?_, ?_, ?_, ?_, hlen⟩ <;> simp [cycleWithUrl, hp]

/-- C4 witness: a nonzero-exit probe failure leaves the cursor unchanged
and emits exactly one operator notification. -/
theorem C4_probe_failure_handling_witness :
    (checkUpdateCycle envC4w (some "abc123")).fileState = some "abc123" ∧
    (get_latest_gitee_commit_hash envC4w.comm).2.length = 1 := by
  have t := C4_probe_failure_handling envC4w (some "abc123") "https://gitee.com/a/b.git"
    (by decide) (by decide) (by decide)
  refine ⟨t.1, ?_⟩
  rw [t.2.2.2.2.2]
  decide

/-- C5 counterexample: when the download entry point follows the
coroutine (async def) convention, the cycle calls it exactly once with a
bare call (line 186) but the work of the entry point is never executed:
the returned coroutine object is neither awaited nor scheduled.  This
refutes the claim that the core invokes the entry point correctly under
both call conventions. -/
theorem C5_counterexample :
    envC5x.downloadConv = CallConv.coroutine ∧
    (checkUpdateCycle envC5x (some "aaa")).downloadCalls = 1 ∧
    (checkUpdateCycle envC5x (some "aaa")).downloadWorkRan = false := by
  decide

/-- C5 (amended): in a cycle that detects a change and resolves the
download entry point, the core performs exactly one bare synchronous
call; the body of the entry point executes exactly when the entry point
follows the synchronous convention, and under the coroutine convention
the work is never executed. -/
theorem C5_call_convention (env : Env) (fs : Option String) (url h : String)
    (hu : env.repoUrl = some url) (hh : strStartsWith url "http" = true)
    (hp : (get_latest_gitee_commit_hash env.comm).1 = some h) (hne : h ≠ "")
    (hdiff : read_last_commit fs ≠ some h)
    (hm : env.moduleFound = true) (hf : env.funcCallable = true) :
    (checkUpdateCycle env fs).downloadCalls = 1 ∧
    (checkUpdateCycle env fs).downloadWorkRan = isSyncConv env.downloadConv := by
  have h2 : some h ≠ read_last_commit fs := fun e => hdiff e.symm
  rw [checkUpdateCycle_valid env url fs hu hh]
  simp only [cycleWithUrl, hp]
  rw [if_pos ⟨hne, h2⟩]
  cases hdc : env.downloadConv <;> cases hr : env.downloadRaises <;>
    simp [hm, hf, hdc, hr, isSyncConv]

/-- C5 witness: under the synchronous convention the single bare call
does execute the work of the entry point. -/
theorem C5_call_convention_witness :
    (checkUpdateCycle envC5w (some "aaa")).downloadCalls = 1 ∧
    (checkUpdateCycle envC5w (some "aaa")).downloadWorkRan = true := by
  have t := C5_call_convention envC5w (some "aaa") "https://gitee.com/a/b.git" "bbb"
    (by decide) (by decide) (by decide) (by decide) (by decide) (by decide) (by decide)
  refine ⟨t.1, ?_⟩
  rw [t.2]
  decide

/-- C6: the probe has no bounded wait.  Lines 97-102 await
process.communicate() with no timeout of any kind, so a subprocess
communication that never completes (for example a stalled network
connection) leaves the probe suspended forever: it yields no result at
all, and in particular no timeout is ever mapped to the network-error
notification path.  This evaluates the code at the failing input, the
hanging subprocess behaviour. -/
theorem C6_unbounded_wait : probe_await CommBehavior.hangs = none := rfl

/-- C7: no ordinary error terminates the tick loop.  An exception caught
by the outer handler of line 207 is followed by the fixed 60 second
cooldown of line 210 and the loop resumes; an exception inside the inner
try is caught at line 196 and the iteration still reaches the interval
sleep of line 201; and the only loop behaviour that stops the loop is
task cancellation (lines 203-206), never an error. -/
theorem C7_loop_resilience (env : Env) (fs : Option String) (m m2 : String) :
    (loopIter env fs (LoopExn.topLevel m)).action = LoopAction.continueAfter 60 ∧
    (loopIter env fs (LoopExn.inCycle m2)).action =
      LoopAction.continueAfter (intervalSecs env.intervalMinutes) ∧
    (∀ e : LoopExn, isStopAction (loopIter env fs e).action = isCancelled e) := by
  refine ⟨rfl, rfl, ?_⟩
  intro e
  cases e with
  | noExn => cases he : env.enabled <;> simp [loopIter, he, isStopAction, isCancelled]
  | cancelled => rfl
  | topLevel m3 => rfl
  | inCycle m3 => rfl

/-- C8: with no persisted cursor (file absent, read as no prior state),
a cycle whose probe observes any non-empty revision enters the change
branch exactly once; and when the downstream module, a callable download
function and a non-raising call are available, the cursor file ends the
cycle containing the observed revision. -/
theorem C8_absent_cursor_bootstrap (env : Env) (url h : String)
    (hu : env.repoUrl = some url) (hh : strStartsWith url "http" = true)
    (hp : (get_latest_gitee_commit_hash env.comm).1 = some h) (hne : h ≠ "") :
    (checkUpdateCycle env none).pipelineRuns = 1 ∧
    (env.moduleFound = true → env.funcCallable = true → env.downloadRaises = false →
      (checkUpdateCycle env none).fileState = some h) := by
  have h2 : some h ≠ read_last_commit none := by simp [read_last_commit]
  rw [checkUpdateCycle_valid env url none hu hh]
  constructor
  · simp only [cycleWithUrl, hp]
    rw [if_pos ⟨hne, h2⟩]
    cases hm : env.moduleFound <;> cases hf : env.funcCallable <;>
      cases hdc : env.downloadConv <;> cases hr : env.downloadRaises <;>
      simp [hm, hf, hdc, hr]
  · intro hm hf hr
    simp only [cycleWithUrl, hp]
    rw [if_pos ⟨hne, h2⟩]
    cases hdc : env.downloadConv <;> simp [hm, hf, hr, hdc]

/-- C8 witness: the absent-cursor scenario of the specification, probe
observing abc123 with a healthy pipeline: the change branch runs and the
cursor file ends containing abc123. -/
theorem C8_absent_cursor_bootstrap_witness :
    (checkUpdateCycle envC8w none).pipelineRuns = 1 ∧
    (checkUpdateCycle envC8w none).fileState = some "abc123" := by
  have t := C8_absent_cursor_bootstrap envC8w "https://gitee.com/a/b.git" "abc123"
    (by decide) (by decide) (by decide) (by decide)
  exact ⟨t.1, t.2 (by decide) (by decide) (by decide)⟩

/-- C9 counterexample: a browsable repository page URL that is not a
commits page, here a tree page, is passed to the head-query completely
unchanged by the line 92 substitution: it is not normalized to the
canonical machine-queryable .git address.  This refutes the claim that
every configured browsable page URL is normalized to the machine form. -/
theorem C9_counterexample :
    strStartsWith "https://gitee.com/amiya/resource/tree/master" "http" = true ∧
    normalizeGitUrl "https://gitee.com/amiya/resource/tree/master" =
      "https://gitee.com/amiya/resource/tree/master" ∧
    strEndsWith (normalizeGitUrl "https://gitee.com/amiya/resource/tree/master") ".git" =
      false := by
  decide

/-- C9 (amended): the prober normalizes only commits-page URLs, and only
under the regex anchoring of line 92: for a newline-free configured URL,
a URL containing /commits/ is rewritten to the text before the first
occurrence followed by .git, and a bare remote address already ending in
.git passes through still in machine form, so in both of these cases the
address given to the head-query ends in .git.  Any other URL, including
every other browsable page URL and any URL whose /commits/ occurrences
are followed by an interior newline, is passed to the head-query without
being brought into the .git machine form. -/
theorem C9_url_normalization (url : String) (hnl : '\n' ∉ url.data)
    (hc : containsStr url "/commits/" = true ∨ strEndsWith url ".git" = true) :
    strEndsWith (normalizeGitUrl url) ".git" = true := by
  have hsub := subCommitsAux_nonl url.data hnl
  cases ho : firstOccur ("/commits/".data) url.data with
  | some i =>
    rw [ho] at hsub
    simp only [Option.map_some'] at hsub
    have hn : normalizeGitUrl url =
        String.mk (url.data.take i ++ ".git".data ++ ([] : List Char)) := by
      simp only [normalizeGitUrl, hsub]
    rw [hn]
    unfold strEndsWith
    simp only [List.append_nil]
    exact isSuffixOf_append_self _ _
  | none =>
    rw [ho] at hsub
    simp only [Option.map_none'] at hsub
    have hn : normalizeGitUrl url = url := by
      simp only [normalizeGitUrl, hsub]
    rw [hn]
    cases hc with
    | inl hin =>
      exfalso
      simp [containsStr, ho] at hin
    | inr hend => exact hend

/-- C9 witness: a newline-free commits-page URL is normalized to an
address in the machine .git form. -/
theorem C9_url_normalization_witness :
    strEndsWith (normalizeGitUrl "https://gitee.com/a/b/commits/master") ".git" = true :=
  C9_url_normalization "https://gitee.com/a/b/commits/master" (by decide) (Or.inl (by decide))

/-- C10: writing a revision identifier with save_last_commit and reading
it back with read_last_commit returns the same string, for identifiers
containing no newline and no leading or trailing whitespace (the read
strips the stored content, so a string unchanged by stripping round
trips exactly), on the successful I/O paths the model embeds. -/
theorem C10_cursor_roundtrip (s : String) (fs : Option String)
    (_hnl : s.data.contains '\n' = false) (hws : pyStrip s = s) :
    read_last_commit (save_last_commit s fs) = some s := by
  simp [read_last_commit, save_last_commit, hws]

/-- C10 witness: the identifier abc123 round trips through the cursor
file. -/
theorem C10_cursor_roundtrip_witness :
    read_last_commit (save_last_commit "abc123" none) = some "abc123" :=
  C10_cursor_roundtrip "abc123" none (by decide) (by decide)
